import Mathlib

/-!
Verification of the TryLess Result library.

This file gives a shallow embedding, in Lean, of the class-based Result API of
the repository (src/package/src/result/classes.ts, src/package/src/unwrap-error.ts,
the functional constructors of src/unnamed/part_007, and the resultfy adapter of
src/unnamed/part_010), together with the standalone functional API
(src/package/src/result/functions.ts), and proves the testable properties stated
in the specification against those embeddings.

Conventions of the embedding:
* JavaScript values are modelled by Lean type parameters (the data type of an Ok,
  the reason type of an Err).
* Thrown exceptions are modelled with `Except`: a method that can throw returns
  `Except E A`, with `.error` for a throw and `.ok` for a normal return.
* The host stack-capture facility (`Error.captureStackTrace`) is an environment
  effect: every operation that captures a stack receives the captured text as an
  explicit `Option String` argument (`none` when the runtime has no such
  facility), exactly as the source treats it as a best-effort capability.
* Promise-like values are modelled by their settlement behaviour
  (fulfilled-with-value or rejected-with-reason); `.then` is modelled by
  `thenSem`, following the Promises/A+ rules for non-thenable handler results.
* Mutation of the receiver is made observable: every method of the class API is
  embedded as a function returning a pair whose first component is the record of
  the receiver fields after the call.  The method bodies in classes.ts contain
  no assignment to `this`, so the translation returns the receiver unchanged;
  a body with an assignment would have to return an updated record here.
-/

namespace TryLess

/-! ## JavaScript string primitives used by the library -/

/-- Boolean test that the list `pat` occurs at the head of `s`
(character-level model of a match of `String.prototype.replace` at the
current position). -/
def patAtHead : List Char → List Char → Bool
  | [], _ => true
  | _ :: _, [] => false
  | p :: ps, c :: cs => p == c && patAtHead ps cs

/-- Character-level model of `String.prototype.replace` with a string pattern:
replace the first occurrence of `pat`, leave the string unchanged when `pat`
does not occur.  (The library only ever calls it with the non-empty pattern
`"Error\n"`.) -/
def replaceFirstChars (pat repl : List Char) : List Char → List Char
  | [] => []
  | c :: cs =>
    if patAtHead pat (c :: cs) then repl ++ List.drop pat.length (c :: cs)
    else c :: replaceFirstChars pat repl cs

/-- Model of `s.replace(pat, repl)` for string patterns (first occurrence only). -/
def jsReplaceFirst (s pat repl : String) : String :=
  ⟨replaceFirstChars pat.data repl.data s.data⟩

/-- JavaScript string coercion of a possibly-`undefined` string: `undefined`
becomes the text `"undefined"` (as in `message += obj.stack?.replace(...)`
when `obj.stack` is undefined). -/
def jsToStr : Option String → String
  | some s => s
  | none => "undefined"

/-- JavaScript `a || b` for an optional string `a`: an absent or empty (falsy)
string falls through to the default. -/
def jsOr : Option String → String → String
  | some s, d => if s = "" then d else s
  | none, d => d

/-- Substring relation: `substrOf needle hay` states that `needle` occurs
contiguously inside `hay` (the property asserted by `expect(...).toContain`
in the repository tests). -/
def substrOf (needle hay : String) : Prop :=
  ∃ pre post : String, pre ++ needle ++ post = hay

/-! ## Constants (src/package/src/result/constants.ts) -/

/-- Constant `UnknownError = "unknown"`. -/
def UnknownError : String := "unknown"

/-- Constant `UnwrapErrorName = "unwrap"`. -/
def UnwrapErrorName : String := "unwrap"

/-! ## The Result variants (src/package/src/result/classes.ts) -/

/-- The two Result classes of classes.ts: `Ok<T>` owns `data : T`;
`Err<E, R>` owns `error : E` (a string label), `reason : R`, and the stack
text captured by `Error.captureStackTrace` in its constructor (`none` when
the runtime has no capture facility).  `success` is `true` exactly on the
`Ok` constructor. -/
inductive Result (α ρ : Type) where
  | Ok (data : α)
  | Err (error : String) (reason : ρ) (stack : Option String)

/-- The `success` discriminant field of a Result. -/
def Result.success : Result α ρ → Bool
  | .Ok _ => true
  | .Err _ _ _ => false

/-- View of a Result as the dynamic object inspected by the `UnwrapError`
constructor with the `in` operator: which of the `error`, `reason` and
`stack` properties are present, and their values.  An `Ok` instance has none
of the three; an `Err` instance always has `error` and `reason` (both are
assigned in its constructor) and has `stack` exactly when the capture
facility ran. -/
structure SourceView (ρ : Type) where
  errorField : Option String
  reasonField : Option ρ
  stackField : Option String

/-- Property view of each variant (see `SourceView`). -/
def Result.view : Result α ρ → SourceView ρ
  | .Ok _ => ⟨none, none, none⟩
  | .Err e r st => ⟨some e, some r, st⟩

/-! ## UnwrapError (src/package/src/unwrap-error.ts) -/

/-- The fields of an `UnwrapError` instance relevant to the specification:
`message`, the `stack` assigned from the capture object, the copied `error`
label, the copied optional `reason`, and `name` (always `"UnwrapError"`). -/
structure UnwrapError (ρ : Type) where
  message : String
  stack : Option String
  error : String
  reason : Option ρ
  name : String

/-- Translation of the `UnwrapError` constructor (unwrap-error.ts:47-71).
`src` is the property view of the result that failed to unwrap, `site` the
stack text that `Error.captureStackTrace(obj, caller)` produced at the call
site of the failing operation (the frames of `caller` itself excluded by the
runtime; `none` when the facility is unavailable), `customMessage` and
`customError` the two optional string arguments.

Line by line: the message starts as `customMessage || "Could not unwrap
result"`; the label is `customError || (result.error when present, else
UnwrapErrorName)` and is quoted into the message; the call-site stack is
appended with its leading `"Error\n"` line replaced by a newline (JavaScript
coerces an undefined capture to the text `"undefined"` here); when the source
result has a `stack` property, it is appended after a space with its leading
`"Error\n"` replaced by the heading `"\n\nError created at\n"`.  The instance
then stores the capture as `stack`, copies `error` (same `||` expression) and
`reason` (when the property is present), and sets `name` to `"UnwrapError"`. -/
def UnwrapError.make (src : SourceView ρ) (site : Option String)
    (customMessage customError : Option String) : UnwrapError ρ :=
  let message0 := jsOr customMessage "Could not unwrap result"
  let errLabel := jsOr customError (match src.errorField with
    | some e => e
    | none => UnwrapErrorName)
  let message1 := message0 ++ (" \x27" ++ (errLabel ++ "\x27"))
  let message2 := message1 ++ jsToStr (site.map (fun s => jsReplaceFirst s "Error\n" "\n"))
  let message3 :=
    match src.stackField with
    | some s => message2 ++ (" " ++ jsReplaceFirst s "Error\n" "\n\nError created at\n")
    | none => message2
  { message := message3
    stack := site
    error := errLabel
    reason := src.reasonField
    name := "UnwrapError" }

/-! ## The method surface of the two classes

Each method `m` of classes.ts is embedded as `Result.mM`, taking the receiver
and the method arguments (plus an explicit `site : Option String` for the
methods that construct an `UnwrapError`, standing for the stack captured at
that call) and returning a pair: the receiver's field record after the body
ran, and the method outcome.  No body in classes.ts assigns to `this`, so in
every arm the first component is the receiver rebuilt unchanged. -/

/-- Embedding of `Ok.unwrap` (classes.ts:192-194) and `Err.unwrap`
(classes.ts:380-382): `Ok` returns its `data`; `Err` throws
`new UnwrapError(this, this.unwrap, "Could not unwrap error", customError)`. -/
def Result.unwrapM : Result α ρ → Option String → Option String →
    Result α ρ × Except (UnwrapError ρ) α
  | .Ok d, _, _ => (.Ok d, .ok d)
  | .Err e r st, customError, site =>
    (.Err e r st,
      .error (UnwrapError.make ⟨some e, some r, st⟩ site (some "Could not unwrap error") customError))

/-- Outcome of `unwrap` (value returned, or `UnwrapError` thrown). -/
def Result.unwrap (self : Result α ρ) (customError site : Option String) :
    Except (UnwrapError ρ) α :=
  (self.unwrapM customError site).2

/-- Embedding of `Ok.unwrapOr` (classes.ts:204-206) and `Err.unwrapOr`
(classes.ts:391-393): `Ok` returns `data` ignoring the default; `Err` returns
the default.  Neither body can throw. -/
def Result.unwrapOrM : Result α ρ → α → Result α ρ × α
  | .Ok d, _ => (.Ok d, d)
  | .Err e r st, d => (.Err e r st, d)

/-- Outcome of `unwrapOr`. -/
def Result.unwrapOr (self : Result α ρ) (d : α) : α :=
  (self.unwrapOrM d).2

/-- Embedding of `Ok.unwrapOrElse` (classes.ts:216-218) and `Err.unwrapOrElse`
(classes.ts:402-404): `Ok` returns `data` without invoking the function; `Err`
returns `defaultValue(this)`. -/
def Result.unwrapOrElseM : Result α ρ → (Result α ρ → α) → Result α ρ × α
  | .Ok d, _ => (.Ok d, d)
  | .Err e r st, f => (.Err e r st, f (.Err e r st))

/-- Embedding of `Ok.unwrapErr` (classes.ts:226-228) and `Err.unwrapErr`
(classes.ts:412-414): `Ok` throws `new UnwrapError(this, this.unwrapErr,
"Could not unwrap error", customError)`; `Err` returns `this`. -/
def Result.unwrapErrM : Result α ρ → Option String → Option String →
    Result α ρ × Except (UnwrapError ρ) (Result α ρ)
  | .Ok d, customError, site =>
    (.Ok d, .error (UnwrapError.make ⟨none, none, none⟩ site (some "Could not unwrap error") customError))
  | .Err e r st, _, _ => (.Err e r st, .ok (.Err e r st))

/-- Embedding of `Ok.unwrapErrOr` (classes.ts:237-239) and `Err.unwrapErrOr`
(classes.ts:424-426): `Ok` returns the default (right injection); `Err`
returns `this` (left injection). -/
def Result.unwrapErrOrM : Result α ρ → β → Result α ρ × (Result α ρ ⊕ β)
  | .Ok d, dv => (.Ok d, .inr dv)
  | .Err e r st, _ => (.Err e r st, .inl (.Err e r st))

/-- Embedding of `Ok.unwrapErrOrElse` (classes.ts:248-250) and
`Err.unwrapErrOrElse` (classes.ts:436-438): `Ok` returns `defaultValue(this)`;
`Err` returns `this` without invoking the function. -/
def Result.unwrapErrOrElseM : Result α ρ → (Result α ρ → β) → Result α ρ × (Result α ρ ⊕ β)
  | .Ok d, f => (.Ok d, .inr (f (.Ok d)))
  | .Err e r st, _ => (.Err e r st, .inl (.Err e r st))

/-- Embedding of `Ok.expect` (classes.ts:261-263) and `Err.expect`
(classes.ts:450-456).  `Ok` always throws with message
`Expected error ${error}, but got success`; `Err` returns `this` when
`this.error === error` and otherwise throws with message
`Expected error ${error}, but got error ${this.error}`. -/
def Result.expectM : Result α ρ → String → Option String → Option String →
    Result α ρ × Except (UnwrapError ρ) (Result α ρ)
  | .Ok d, expected, customError, site =>
    (.Ok d, .error (UnwrapError.make ⟨none, none, none⟩ site
      (some ("Expected error " ++ (expected ++ ", but got success"))) customError))
  | .Err e r st, expected, customError, site =>
    (.Err e r st,
      if e = expected then .ok (.Err e r st)
      else .error (UnwrapError.make ⟨some e, some r, st⟩ site
        (some ("Expected error " ++ (expected ++ (", but got error " ++ e)))) customError))

/-- Outcome of `expect`. -/
def Result.expect (self : Result α ρ) (expected : String) (customError site : Option String) :
    Except (UnwrapError ρ) (Result α ρ) :=
  (self.expectM expected customError site).2

/-- Embedding of `Ok.and` (classes.ts:273-275) and `Err.and`
(classes.ts:466-468): `Ok` returns the given result; `Err` returns `this`
(an `Err` carries no data, so re-indexing the data type is the identity on
its fields). -/
def Result.andM : Result α ρ → Result β ρ → Result α ρ × Result β ρ
  | .Ok d, next => (.Ok d, next)
  | .Err e r st, _ => (.Err e r st, .Err e r st)

/-- Embedding of `Ok.andThen` (classes.ts:285-287) and `Err.andThen`
(classes.ts:478-480): `Ok` returns `fn(this.data)`; `Err` returns `this`,
never invoking `fn`.  The middle component counts the invocations of `fn`
performed by the body. -/
def Result.andThenM : Result α ρ → (α → Result β ρ) → Result α ρ × Nat × Result β ρ
  | .Ok d, f => (.Ok d, 1, f d)
  | .Err e r st, _ => (.Err e r st, 0, .Err e r st)

/-- Embedding of `Ok.or` (classes.ts:297-299) and `Err.or`
(classes.ts:490-492): `Ok` returns `this` ignoring the fallback; `Err`
returns the fallback. -/
def Result.orM : Result α ρ → Result α ρ → Result α ρ × Result α ρ
  | .Ok d, _ => (.Ok d, .Ok d)
  | .Err e r st, fallback => (.Err e r st, fallback)

/-- Embedding of `Ok.orElse` (classes.ts:309-311) and `Err.orElse`
(classes.ts:502-504): `Ok` returns `this`, never invoking `fn`; `Err` returns
`fn(this)`.  The middle component counts the invocations of `fn`. -/
def Result.orElseM : Result α ρ → (Result α ρ → Result α ρ) → Result α ρ × Nat × Result α ρ
  | .Ok d, _ => (.Ok d, 0, .Ok d)
  | .Err e r st, f => (.Err e r st, 1, f (.Err e r st))

/-- Embedding of `Ok.map` (classes.ts:320-322) and `Err.map`
(classes.ts:513-515): both variants return `fn(this)`. -/
def Result.mapM : Result α ρ → (Result α ρ → β) → Result α ρ × β
  | .Ok d, f => (.Ok d, f (.Ok d))
  | .Err e r st, f => (.Err e r st, f (.Err e r st))

/-- Embedding of `Result.isOk` (classes.ts:137-139): `this.success === true`. -/
def Result.isOkM : Result α ρ → Result α ρ × Bool
  | .Ok d => (.Ok d, true)
  | .Err e r st => (.Err e r st, false)

/-- Embedding of `Result.isErr` (classes.ts:146-148): `this.success === false`. -/
def Result.isErrM : Result α ρ → Result α ρ × Bool
  | .Ok d => (.Ok d, false)
  | .Err e r st => (.Err e r st, true)

/-- Embedding of `Ok.toString` (classes.ts:329-331) and `Err.toString`
(classes.ts:522-524); `sd` and `sr` are the JavaScript string coercions of
the data and reason values, and an undefined stack prints as `"undefined"`. -/
def Result.toStringM (self : Result α ρ) (sd : α → String) (sr : ρ → String) :
    Result α ρ × String :=
  match self with
  | .Ok d => (.Ok d, "Success<" ++ (sd d ++ ">"))
  | .Err e r st => (.Err e r st, e ++ (": " ++ (sr r ++ (" - " ++ jsToStr st))))

/-! ## Functional constructors over the classes (src/unnamed/part_007) -/

/-- Constructor `ok(data)` of part_007: `new Ok(data)`. -/
def okFn (d : α) : Result α ρ := .Ok d

/-- Constructor `err(error, reason)` of part_007: `new Err(error, reason, err)`;
`st` is the stack captured by the Err constructor at this point (`none` on a
runtime without the capture facility). -/
def errFn (e : String) (r : ρ) (st : Option String) : Result α ρ := .Err e r st

/-- Projection used to state theorems: the `name` of the thrown `UnwrapError`,
or `none` when the operation returned normally. -/
def thrownName : Except (UnwrapError ρ) β → Option String
  | .error u => some u.name
  | .ok _ => none

/-- Projection used to state theorems: the `error` label of the thrown
`UnwrapError`, or `none` when the operation returned normally. -/
def thrownLabel : Except (UnwrapError ρ) β → Option String
  | .error u => some u.error
  | .ok _ => none

/-! ## The function/promise adapter (src/unnamed/part_010) -/

/-- Settlement behaviour of a promise-like value: it either fulfills with a
value or rejects with a reason.  A pending promise is modelled by the
settlement it eventually reaches (the adapter adds no timeouts or
cancellation, so every theorem about settled behaviour transfers). -/
inductive PromiseOutcome (ρ α : Type) where
  | fulfilled (v : α)
  | rejected (r : ρ)

/-- Promises/A+ semantics of `p.then(onFul, onRej)` for handlers returning
non-thenable values: the matching handler runs on the settled outcome; its
return value fulfills the new promise and a throw from it (the `Except.error`
branch of the handler) rejects the new promise. -/
def thenSem (p : PromiseOutcome ρ α) (onFul : α → Except ε β) (onRej : ρ → Except ε β) :
    PromiseOutcome ε β :=
  match p with
  | .fulfilled v =>
    match onFul v with
    | .ok b => .fulfilled b
    | .error e => .rejected e
  | .rejected r =>
    match onRej r with
    | .ok b => .fulfilled b
    | .error e => .rejected e

/-- Behaviour of one call of a wrapped function: it returns a non-thenable
value, returns a promise-like value, or throws. -/
inductive SyncOutcome (ρ α : Type) where
  | ret (v : α)
  | retThenable (p : PromiseOutcome ρ α)
  | throws (e : ρ)

/-- What one invocation of the `resultfy` wrapper produces: a Result
synchronously, or a promise of a Result. -/
inductive WrapperOut (α ρ : Type) where
  | sync (r : Result α ρ)
  | async (p : PromiseOutcome ρ (Result α ρ))

/-- Translation of the wrapper closure of `resultfy` (part_010:231-241) for a
function argument, applied to one argument list `args`.  `fnError` is the
optional label given to `resultfy` and `error = fnError ?? UnknownError`
(nullish coalescing, hence `Option.getD`); `st` is the stack captured by the
`Err` constructor when a failure object is built.  The body runs
`fn(...args)` in a `try`: a thenable return is settled through
`then(ok, reason => new Err(error, reason, wrapper))`, a plain return is
wrapped with `ok(result)`, and a synchronous throw is caught and returned
(not rethrown) as `new Err(error, reason, wrapper)`. -/
def resultfyWrapper (fnError : Option String) (f : σ → SyncOutcome ρ α) (args : σ)
    (st : Option String) : WrapperOut α ρ :=
  let error := fnError.getD UnknownError
  match f args with
  | .ret v => .sync (okFn v)
  | .retThenable p =>
    .async (thenSem p (fun v => .ok (okFn v)) (fun reason => .ok (.Err error reason st)))
  | .throws reason => .sync (.Err error reason st)

/-- Translation of the promise branch of `resultfy` (part_010:223-225):
`fn.then(ok, errReject(error))` with `error = fnError ?? UnknownError`, where
`errReject(error)` is `reason => new Err(error, reason, rejectWrapper)`
(part_010:102-106) and `st` is the stack the `Err` constructor captures. -/
def resultfyPromise (fnError : Option String) (p : PromiseOutcome ρ α)
    (st : Option String) : PromiseOutcome ρ (Result α ρ) :=
  thenSem p (fun v => .ok (okFn v)) (fun reason => .ok (.Err (fnError.getD UnknownError) reason st))

/-- A plain JavaScript `Error` (as created by `new Error(message)`): its
`name` is `"Error"`, distinguishing it from an `UnwrapError` and from any
Result value. -/
structure PlainError where
  name : String
  message : String

/-- Classification of the argument given to `resultfy`, following the dynamic
tests the function performs: a promise-like value (`isThenable`), a callable,
or anything else. -/
inductive ResultfyArg (σ ρ α : Type) where
  | thenable (p : PromiseOutcome ρ α)
  | callable (f : σ → SyncOutcome ρ α)
  | other

/-- Return value of `resultfy` itself: a promise of a Result, or the wrapper
function (which still needs an argument list and a per-call captured stack). -/
inductive TopOut (σ ρ α : Type) where
  | promise (p : PromiseOutcome ρ (Result α ρ))
  | wrapped (w : σ → Option String → WrapperOut α ρ)

/-- Translation of the dispatch of `resultfy` (part_010:218-242): a thenable
argument is settled through `then(ok, errReject(error))`; a callable argument
yields the wrapper closure; anything else throws the plain
`new Error("fn must be a function or a promise")` synchronously (an
`Except.error` here, never a Result).  `st` is the stack captured when the
promise branch builds a failure object. -/
def resultfyTop (fnError : Option String) (arg : ResultfyArg σ ρ α) (st : Option String) :
    Except PlainError (TopOut σ ρ α) :=
  match arg with
  | .thenable p => .ok (.promise (resultfyPromise fnError p st))
  | .callable f => .ok (.wrapped (fun args st2 => resultfyWrapper fnError f args st2))
  | .other => .error { name := "Error", message := "fn must be a function or a promise" }

/-! ## The standalone functional API (src/package/src/result/functions.ts) -/

/-- Plain-object results of functions.ts.  A success object carries a `data`
property or not (`ok()` builds `{ success: true }` with no `data` key, `ok(x)`
builds `{ success: true, data: x }`); a failure object carries an `error`
label, an optional `reason` property, and the stack text captured on it by
`err` (`none` without the capture facility). -/
inductive FResult (α ρ : Type) where
  | success (dataField : Option α)
  | failure (error : String) (reasonField : Option ρ) (stack : Option String)

/-- The `success` field of a plain-object result. -/
def FResult.successField : FResult α ρ → Bool
  | .success _ => true
  | .failure _ _ _ => false

/-- Translation of `ok` (functions.ts:36-42): with no argument (or an
undefined one, which triggers the `None`-sentinel default) it returns
`{ success: true }`, otherwise `{ success: true, data }`. -/
def okF : Option α → FResult α ρ
  | none => .success none
  | some d => .success (some d)

/-- Translation of `err` (functions.ts:59-90): with no label it returns
`{ success: false, error: UnknownError }` (no `reason` key); with a label but
no reason, `{ success: false, error }`; otherwise
`{ success: false, error, reason }`.  Every branch captures a stack onto the
object when the facility exists (`st`). -/
def errF (e : Option String) (r : Option ρ) (st : Option String) : FResult α ρ :=
  match e with
  | none => .failure UnknownError none st
  | some label =>
    match r with
    | none => .failure label none st
    | some reason => .failure label (some reason) st

/-- The fields of a `ResultError` instance (errors.ts of the same API
iteration, re-exported by functions.ts): `name` is always `"ResultError"`,
and the failure payload it was built from exposes `error` and the optional
`reason`. -/
structure ResultErrorE (ρ : Type) where
  name : String
  error : String
  reason : Option ρ

/-- Translation of the standalone `unwrap` (functions.ts:236-249).  On a
success with a `data` property, return it.  On a success without one, throw
`new ResultError({ success: false, error: UnwrapError, reason: result.data })`
where the `UnwrapError` constant is the label `"unwrap"` and `result.data` is
undefined.  On a failure, return the default when one was supplied (the
private `None` sentinel cannot be passed from outside), else throw
`new ResultError(result)`. -/
def unwrapF (result : FResult α ρ) (defaultValue : Option α) : Except (ResultErrorE ρ) α :=
  match result with
  | .success dataField =>
    match dataField with
    | some d => .ok d
    | none => .error { name := "ResultError", error := UnwrapErrorName, reason := none }
  | .failure e r _ =>
    match defaultValue with
    | some d => .ok d
    | none => .error { name := "ResultError", error := e, reason := r }

/-! ## Helper lemmas about the string primitives -/

/-- Replacing the first occurrence of the pattern in a string that starts with
the pattern removes exactly that leading occurrence. -/
theorem replaceErrorHead (rest repl : String) :
    jsReplaceFirst ("Error\n" ++ rest) "Error\n" repl = repl ++ rest := by
  cases rest; cases repl; rfl

/-- A string with a non-empty left factor is non-empty. -/
theorem strAppendNeEmpty (a b : String) (h : a.data ≠ []) : a ++ b ≠ "" := by
  intro he
  apply h
  have hd := congrArg String.data he
  have hd2 : a.data ++ b.data = [] := by
    cases a; cases b; exact hd
  exact (List.append_eq_nil.mp hd2).1

/-- JavaScript `s || d` keeps a non-empty (truthy) string `s`. -/
theorem jsOrSome (s d : String) (h : s ≠ "") : jsOr (some s) d = s := by
  simp [jsOr, h]

/-- Every string occurs in itself. -/
theorem substrOfHere (n : String) : substrOf n n :=
  ⟨"", "", by rw [String.empty_append, String.append_empty]⟩

/-- Occurrence is preserved by appending on the right. -/
theorem substrOfRight (t : String) (h : substrOf n hay) : substrOf n (hay ++ t) := by
  obtain ⟨p, q, hpq⟩ := h
  exact ⟨p, q ++ t, by rw [← hpq]; simp [String.append_assoc]⟩

/-- Occurrence is preserved by appending on the left. -/
theorem substrOfLeft (t : String) (h : substrOf n hay) : substrOf n (t ++ hay) := by
  obtain ⟨p, q, hpq⟩ := h
  exact ⟨t ++ p, q, by rw [← hpq]; simp [String.append_assoc]⟩

/-- Every needle occurring in a non-empty custom message occurs in the message
of the `UnwrapError` built from it: the constructor only appends further text
(quoted label, call-site stack, origin stack) around the custom message. -/
theorem substrOfMakeMessage {ρ : Type} (src : SourceView ρ) (site : Option String)
    (T : String) (hT : T ≠ "") (cE : Option String) {n : String} (hn : substrOf n T) :
    substrOf n (UnwrapError.make src site (some T) cE).message := by
  unfold UnwrapError.make
  simp only [jsOrSome T _ hT]
  cases src.stackField <;>
    · simp only []
      first
      | exact substrOfRight _ (substrOfRight _ (substrOfRight _ hn))
      | exact substrOfRight _ (substrOfRight _ hn)

/-! ## Claim theorems -/

/-- Claim C2: for every function f wrapped by resultfy and every argument
list, if f returns synchronously the wrapper returns Ok of that return value;
if f throws synchronously the wrapper catches the exception and returns (not
throws) an Err whose error label is the label passed to resultfy, or
"unknown" when no label was passed, and whose reason is the caught exception
itself. -/
theorem C2_resultfy_sync {σ ρ α : Type} :
    (∀ (lab : Option String) (f : σ → SyncOutcome ρ α) (args : σ) (st : Option String) (v : α),
       f args = .ret v → resultfyWrapper lab f args st = .sync (okFn v)) ∧
    (∀ (lab : Option String) (f : σ → SyncOutcome ρ α) (args : σ) (st : Option String) (ex : ρ),
       f args = .throws ex →
         resultfyWrapper lab f args st = .sync (.Err (lab.getD "unknown") ex st)) := by
  constructor <;> (intro lab f args st w h; simp [resultfyWrapper, h, UnknownError])

/-- Claim C2 witness: wrapping the constant function returning 7 yields
`Ok 7`, and wrapping a function that throws `boom` with no label yields
`Err "unknown" boom`. -/
theorem C2_resultfy_sync_witness :
    resultfyWrapper none (fun _ : Unit => (SyncOutcome.ret 7 : SyncOutcome Nat Nat)) () none
        = .sync (okFn 7) ∧
      resultfyWrapper (some "custom")
          (fun _ : Unit => (SyncOutcome.throws 99 : SyncOutcome Nat Nat)) () none
        = .sync (.Err "custom" 99 none) :=
  ⟨C2_resultfy_sync.1 none _ () none 7 rfl, C2_resultfy_sync.2 (some "custom") _ () none 99 rfl⟩

/-- Claim C3: for every promise-like value given to resultfy, the returned
promise resolves to Ok(v) on fulfillment with v, resolves to
Err(label ?? "unknown", rejectionReason) on rejection, and never itself
rejects. -/
theorem C3_resultfy_promise {ρ α : Type} :
    (∀ (lab : Option String) (st : Option String) (v : α),
       resultfyPromise lab (.fulfilled v : PromiseOutcome ρ α) st = .fulfilled (okFn v)) ∧
    (∀ (lab : Option String) (st : Option String) (r : ρ),
       resultfyPromise lab (.rejected r : PromiseOutcome ρ α) st
         = .fulfilled (.Err (lab.getD "unknown") r st)) ∧
    (∀ (lab : Option String) (st : Option String) (p : PromiseOutcome ρ α),
       ∃ res, resultfyPromise lab p st = .fulfilled res) := by
  refine ⟨fun lab st v => rfl, fun lab st r => rfl, fun lab st p => ?_⟩
  cases p <;> exact ⟨_, rfl⟩

/-- Claim C6: `err(L,R).andThen(f)` never invokes f (the invocation count of
the translated body is 0) and returns an Err with the fields of the original;
`ok(x).orElse(f)` never invokes f and returns the original Ok. -/
theorem C6_short_circuit {α β ρ : Type} :
    (∀ (L : String) (R : ρ) (st : Option String) (f : α → Result β ρ),
       (errFn L R st : Result α ρ).andThenM f
         = (errFn L R st, 0, (Result.Err L R st : Result β ρ))) ∧
    (∀ (x : α) (g : Result α ρ → Result α ρ),
       (okFn x : Result α ρ).orElseM g = (okFn x, 0, okFn x)) := by
  exact ⟨fun L R st f => rfl, fun x g => rfl⟩

/-- Claim C7: `ok(x).unwrapOr(D) = x` (the default is ignored) and
`err(L).unwrapOr(D) = D`, for any reason value carried by the Err; `unwrapOr`
is embedded as a total function because neither body can raise. -/
theorem C7_unwrapOr_defaults {α ρ : Type} :
    (∀ (x D : α), (okFn x : Result α ρ).unwrapOr D = x) ∧
    (∀ (L : String) (r : ρ) (st : Option String) (D : α),
       (errFn L r st : Result α ρ).unwrapOr D = D) := by
  exact ⟨fun x D => rfl, fun L r st D => rfl⟩

/-- Claim C8: called with an argument that is neither a function nor a
promise-like value, resultfy throws synchronously a plain Error (name
"Error", not an UnwrapError) with the message identifying the misuse; it does
not return an Ok, an Err or a promise. -/
theorem C8_resultfy_misuse {σ ρ α : Type} (lab : Option String) (st : Option String) :
    ∃ e : PlainError,
      resultfyTop lab (ResultfyArg.other : ResultfyArg σ ρ α) st = .error e ∧
      e.message = "fn must be a function or a promise" ∧
      e.name = "Error" ∧ e.name ≠ "UnwrapError" :=
  ⟨_, rfl, rfl, rfl, by decide⟩

/-- Claim C9: no operation of the API mutates the receiver: for every
constructed Result, the receiver's field record after any of the operations
(the first component of each translated method) equals the receiver.  The
method bodies in classes.ts contain no assignment to `this`, and all
transforms build their output as new values. -/
theorem C9_immutability {α β ρ : Type} (self : Result α ρ) :
    (∀ c s, (self.unwrapM c s).1 = self) ∧
    (∀ d, (self.unwrapOrM d).1 = self) ∧
    (∀ f, (self.unwrapOrElseM f).1 = self) ∧
    (∀ c s, (self.unwrapErrM c s).1 = self) ∧
    (∀ d : β, (self.unwrapErrOrM d).1 = self) ∧
    (∀ f : Result α ρ → β, (self.unwrapErrOrElseM f).1 = self) ∧
    (∀ X c s, (self.expectM X c s).1 = self) ∧
    (∀ r : Result β ρ, (self.andM r).1 = self) ∧
    (∀ f : α → Result β ρ, (self.andThenM f).1 = self) ∧
    (∀ r, (self.orM r).1 = self) ∧
    (∀ f, (self.orElseM f).1 = self) ∧
    (∀ f : Result α ρ → β, (self.mapM f).1 = self) ∧
    (self.isOkM.1 = self) ∧
    (self.isErrM.1 = self) ∧
    (∀ sd sr, (self.toStringM sd sr).1 = self) := by
  cases self <;>
    exact ⟨fun c s => rfl, fun d => rfl, fun f => rfl, fun c s => rfl, fun d => rfl,
      fun f => rfl, fun X c s => rfl, fun r => rfl, fun f => rfl, fun r => rfl,
      fun f => rfl, fun f => rfl, rfl, rfl, fun sd sr => rfl⟩

/-- Claim C10: the standalone unwrap of the functional API, applied to the
success object built by the zero-argument ok() (which has no data property),
throws a ResultError even though the object is a success, for every supplied
default; on a success with a data property it returns the data; on a failure
with a supplied default it returns the default. -/
theorem C10_functional_unwrap {α ρ : Type} :
    ((okF none : FResult α ρ).successField = true) ∧
    (∀ d : Option α, ∃ ex, unwrapF (okF none : FResult α ρ) d = .error ex ∧
       ex.name = "ResultError") ∧
    (∀ (x : α) (d : Option α), unwrapF (okF (some x) : FResult α ρ) d = .ok x) ∧
    (∀ (e : String) (r : Option ρ) (st : Option String) (D : α),
       unwrapF (.failure e r st : FResult α ρ) (some D) = .ok D) := by
  exact ⟨rfl, fun d => ⟨_, rfl, rfl⟩, fun x d => rfl, fun e r st D => rfl⟩

/-- Claim C1 counterexample: the claim fails for the supplied custom label
`""`.  The `UnwrapError` constructor computes its label with JavaScript `||`
(`customError || result.error`), so the empty (falsy) supplied label is
discarded and the raised error carries the Err's own label "NotFound" instead
of the supplied label. -/
theorem C1_counterexample :
    thrownLabel ((Result.Err "NotFound" 0 none : Result Nat Nat).unwrap (some "") none)
        = some "NotFound" ∧ ("NotFound" : String) ≠ "" := by
  constructor
  · rfl
  · decide

/-- Claim C1 (amended): `ok(x).unwrap()` returns exactly x for every custom
label and site stack; on every Err, unwrap raises an UnwrapError (name
"UnwrapError") and never returns; and when a non-empty customErrorLabel is
supplied on an Err, the raised UnwrapError uses that label in place of the
Err's own label. -/
theorem C1_unwrap_roundtrip {α ρ : Type} :
    (∀ (x : α) (c s : Option String), (okFn x : Result α ρ).unwrap c s = .ok x) ∧
    (∀ (L : String) (r : ρ) (st c s : Option String),
       thrownName ((Result.Err L r st : Result α ρ).unwrap c s) = some "UnwrapError") ∧
    (∀ (L : String) (r : ρ) (st s : Option String) (c : String), c ≠ "" →
       thrownLabel ((Result.Err L r st : Result α ρ).unwrap (some c) s) = some c) := by
  refine ⟨fun x c s => rfl, fun L r st c s => rfl, fun L r st s c hc => ?_⟩
  simp [Result.unwrap, Result.unwrapM, thrownLabel, UnwrapError.make, jsOrSome c _ hc]

/-- Claim C1 witness: unwrapping `Err("NotFound", 0)` with the non-empty
custom label "custom" raises an UnwrapError labelled "custom". -/
theorem C1_unwrap_roundtrip_witness :
    thrownLabel ((Result.Err "NotFound" 0 none : Result Nat Nat).unwrap (some "custom") none)
      = some "custom" :=
  C1_unwrap_roundtrip.2.2 "NotFound" 0 none none "custom" (by decide)

/-- Claim C4: unwrapping an Err that carries an origin stack (of the V8 shape
`"Error\n" ++ frames`, as produced by `Error.captureStackTrace` at its
construction) raises an UnwrapError whose message contains the call-site
frames captured at the unwrap call (the capture facility itself excludes the
unwrap frame, so the captured text holds only the caller's frames) and the
origin frames under the separated heading `"\n\nError created at\n"`, and
whose error and reason fields are copied from the source Err. -/
theorem C4_unwrap_provenance {α ρ : Type} (L : String) (r : ρ) (sfr ofr : String) :
    ∃ u, (Result.Err L r (some ("Error\n" ++ ofr)) : Result α ρ).unwrap none
          (some ("Error\n" ++ sfr)) = .error u ∧
      substrOf sfr u.message ∧
      substrOf ("\n\nError created at\n" ++ ofr) u.message ∧
      u.error = L ∧ u.reason = some r ∧ u.name = "UnwrapError" := by
  refine ⟨_, rfl, ?_, ?_, rfl, rfl, rfl⟩
  · show substrOf sfr (UnwrapError.make ⟨some L, some r, some ("Error\n" ++ ofr)⟩
      (some ("Error\n" ++ sfr)) (some "Could not unwrap error") none).message
    unfold UnwrapError.make
    simp only [jsToStr, Option.map, replaceErrorHead, jsOr]
    refine substrOfRight _ (substrOfLeft _ (substrOfLeft _ (substrOfHere sfr)))
  · show substrOf ("\n\nError created at\n" ++ ofr) (UnwrapError.make
      ⟨some L, some r, some ("Error\n" ++ ofr)⟩ (some ("Error\n" ++ sfr))
      (some "Could not unwrap error") none).message
    unfold UnwrapError.make
    simp only [jsToStr, Option.map, replaceErrorHead, jsOr]
    refine substrOfLeft _ (substrOfLeft _ (substrOfHere _))

/-- Claim C5: on an Err, `expect(L)` returns the receiver itself exactly when
its error label equals L; on a label mismatch it raises an UnwrapError whose
message contains both the expected and the actual label; on any Ok it raises
an UnwrapError whose message states that success was found where the expected
error was awaited. -/
theorem C5_expect {α ρ : Type} :
    (∀ (L : String) (r : ρ) (st : Option String) (X : String) (c s : Option String),
       ((errFn L r st : Result α ρ).expect X c s = .ok (errFn L r st)) ↔ L = X) ∧
    (∀ (L : String) (r : ρ) (st : Option String) (X : String) (c s : Option String),
       L ≠ X → ∃ u, (errFn L r st : Result α ρ).expect X c s = .error u ∧
         u.name = "UnwrapError" ∧ substrOf X u.message ∧ substrOf L u.message) ∧
    (∀ (x : α) (X : String) (c s : Option String),
       ∃ u, (okFn x : Result α ρ).expect X c s = .error u ∧ u.name = "UnwrapError" ∧
         substrOf ("Expected error " ++ (X ++ ", but got success")) u.message) := by
  refine ⟨?_, ?_, ?_⟩
  · intro L r st X c s
    constructor
    · intro h
      by_contra hne
      simp [Result.expect, Result.expectM, errFn, if_neg hne] at h
    · intro h
      subst h
      simp [Result.expect, Result.expectM, errFn]
  · intro L r st X c s hne
    refine ⟨UnwrapError.make ⟨some L, some r, st⟩ s
      (some ("Expected error " ++ (X ++ (", but got error " ++ L)))) c, ?_, rfl, ?_, ?_⟩
    · simp [Result.expect, Result.expectM, errFn, if_neg hne]
    · refine substrOfMakeMessage _ _ _ (strAppendNeEmpty "Expected error " _ (by decide)) _ ?_
      exact substrOfLeft _ (substrOfRight _ (substrOfHere X))
    · refine substrOfMakeMessage _ _ _ (strAppendNeEmpty "Expected error " _ (by decide)) _ ?_
      exact substrOfLeft _ (substrOfLeft _ (substrOfLeft _ (substrOfHere L)))
  · intro x X c s
    refine ⟨_, rfl, rfl, ?_⟩
    refine substrOfMakeMessage _ _ _ (strAppendNeEmpty "Expected error " _ (by decide)) _ ?_
    exact substrOfHere _

/-- Claim C5 witness: `err("A").expect("B")` raises an UnwrapError whose
message contains both "A" and "B". -/
theorem C5_expect_witness :
    ∃ u, (errFn "A" 0 none : Result Nat Nat).expect "B" none none = .error u ∧
      u.name = "UnwrapError" ∧ substrOf "B" u.message ∧ substrOf "A" u.message :=
  C5_expect.2.1 "A" 0 none "B" none none (by decide)

end TryLess
